import Mathlib

/-!
Verification of the train-delay prediction demo services.

This file gives a shallow embedding, in Lean 4, of the pure computational
core of the repository:

* the mock prediction service (`extractTrainNumber`, `trainScenarios`,
  `generateRandomPrediction`, `predictTrainDelay`, `calculateArrivalTime`,
  `routeMappings`, `findTrainsByRoute`, `predictTrainDelayByRoute`);
* the map-data generator (`routeDefinitions`, `generateMapData`);
* the bus-stop ranking service (`busStopsDatabase`, `getNearbyBusStops`);
* the mock directions generator (`generateDirectionSteps`,
  `getDirectionsToBusStop`).

Conventions used by the embedding:

* JavaScript numbers are modelled as `ℚ` (or `ℕ`/`ℤ` where the source only
  ever holds integers).  The one place where a division can have a zero
  divisor (`generateMapData`, single-station route) is modelled with an
  explicit `Option ℚ` (`jsdiv`): `none` stands for the JavaScript `NaN`
  produced by `0 / 0`.
* `Math.random()` is modelled by a draw stream `r : ℕ → ℚ` whose values are
  in `[0, 1)`; each call site reads a fixed index of the stream.  Array
  indexing by a draw is modelled with `List.getD`, whose default is only
  reached for draws outside `[0, 1)` (impossible in JavaScript).
* `Date`/`toLocaleTimeString("en-US", hour/minute 2-digit)` is modelled by a
  `now` parameter counting minutes since midnight and a 12-hour hh:mm AM/PM
  formatter.
* String operations (`toLowerCase`, `trim`, `includes`, `match`) are defined
  structurally on `String.data` so that all definitions reduce.
-/

namespace TrainDelay

/-! ### String utilities (JavaScript string primitives) -/

/-- ASCII lower-casing of one character, as `String.prototype.toLowerCase`
acts on the ASCII strings used in this repository. -/
def charLower (c : Char) : Char :=
  if 'A' ≤ c ∧ c ≤ 'Z' then Char.ofNat (c.toNat + 32) else c

/-- Source `s.toLowerCase()`. -/
def strLower (s : String) : String :=
  ⟨s.data.map charLower⟩

/-- Whitespace characters removed by `String.prototype.trim`. -/
def isWSChar (c : Char) : Bool :=
  c = ' ' ∨ c = '\t' ∨ c = '\n' ∨ c = '\r'

/-- Source `s.trim()`: strip leading and trailing whitespace. -/
def strTrim (s : String) : String :=
  ⟨(((s.data.dropWhile isWSChar).reverse.dropWhile isWSChar).reverse)⟩

/-- Substring containment on character lists: `hay.includes(needle)`. -/
def listContains (hay needle : List Char) : Bool :=
  hay.tails.any (fun t => needle.isPrefixOf t)

/-- Source `hay.includes(needle)` for strings. -/
def strContains (hay needle : String) : Bool :=
  listContains hay.data needle.data

/-- The first contiguous run of digits of a character list, i.e. the text
matched by the regular expression `\d+` (empty if there is no digit). -/
def firstDigitRun : List Char → List Char
  | [] => []
  | c :: rest => if c.isDigit then c :: rest.takeWhile Char.isDigit
                 else firstDigitRun rest

/-- Source `extractTrainNumber` : `input.match(/\d+/)`, returning `""` when the
input holds no digit. -/
def extractTrainNumber (input : String) : String :=
  ⟨firstDigitRun input.data⟩

/-- Source `parseInt` applied to the all-digit strings produced by
`extractTrainNumber` (its only call sites in the service). -/
def parseIntDigits (s : String) : ℕ :=
  s.data.foldl (fun n c => n * 10 + (c.toNat - 48)) 0

/-- Two-digit zero padding used by the `"2-digit"` time format. -/
def pad2 (n : ℕ) : String :=
  (if n < 10 then "0" else "") ++ Nat.repr n

/-- Source `Date.toLocaleTimeString("en-US", hour "2-digit", minute "2-digit")` on a
clock reading of `m` minutes since midnight (dates roll over, so only
`m % 1440` matters). -/
def fmtTime12 (m : ℕ) : String :=
  let t := m % 1440
  let h := t / 60
  let mm := t % 60
  let h12 := if h % 12 = 0 then 12 else h % 12
  pad2 h12 ++ ":" ++ pad2 mm ++ " " ++ (if h < 12 then "AM" else "PM")

/-! ### Association tables (JavaScript `Record` literals)

Object literals with string keys are embedded as association lists in
insertion order; `Record` lookup is `lookupTable`. -/

/-- Lookup in an association list, first (and in these tables only) binding
of the key. -/
def lookupTable {α : Type} : List (String × α) → String → Option α
  | [], _ => none
  | (k, v) :: rest, key => if key = k then some v else lookupTable rest key

/-! ### Prediction data model -/

/-- The `riskLevel` union type `"low" | "medium" | "high"`. -/
inductive RiskLevel
  | low
  | medium
  | high
deriving DecidableEq, Repr

/-- One element of the `alternatives` array. -/
structure Alternative where
  type : String
  name : String
  waitTime : String
deriving DecidableEq, Repr

/-- The `DelayPrediction` interface. -/
structure DelayPrediction where
  trainNumber : String
  eta : String
  delayMinutes : ℕ
  riskLevel : RiskLevel
  cause : String
  currentLocation : Option String
  alternatives : List Alternative
  hasGPSData : Bool
  hasWeatherData : Bool
  errorMessage : Option String
deriving DecidableEq, Repr

/-! ### The mock train database (`trainScenarios`) -/

/-- The fixed scenario table: train-number string to canned prediction. -/
def trainScenarios : List (String × DelayPrediction) :=
  [ ("205",
     { trainNumber := "Train 205", eta := "09:42 AM", delayMinutes := 12,
       riskLevel := .medium, cause := "Congestion at Junction Station",
       currentLocation := some "Approaching Central Junction",
       alternatives :=
         [ ⟨"bus", "Bus 10", "3 mins"⟩,
           ⟨"train", "Express Train 210", "8 mins"⟩ ],
       hasGPSData := true, hasWeatherData := true, errorMessage := none }),
    ("450",
     { trainNumber := "Train 450", eta := "10:15 AM", delayMinutes := 0,
       riskLevel := .low, cause := "No delays detected",
       currentLocation := some "Platform 5, Main Station",
       alternatives := [],
       hasGPSData := true, hasWeatherData := true, errorMessage := none }),
    ("132",
     { trainNumber := "Train 132", eta := "11:25 AM", delayMinutes := 25,
       riskLevel := .high,
       cause := "Severe weather conditions (Heavy rain)",
       currentLocation := some "Delayed at North Terminal",
       alternatives :=
         [ ⟨"bus", "Bus 10", "3 mins"⟩, ⟨"bus", "Bus 22", "5 mins"⟩ ],
       hasGPSData := true, hasWeatherData := true, errorMessage := none }),
    ("301",
     { trainNumber := "Train 301", eta := "02:20 PM", delayMinutes := 8,
       riskLevel := .low, cause := "Minor signal delay",
       currentLocation := some "West Station",
       alternatives := [ ⟨"train", "Train 305", "10 mins"⟩ ],
       hasGPSData := true, hasWeatherData := true, errorMessage := none }),
    ("777",
     { trainNumber := "Train 777", eta := "03:45 PM", delayMinutes := 18,
       riskLevel := .medium, cause := "Technical maintenance required",
       currentLocation := some "Service Bay 2",
       alternatives := [],
       hasGPSData := false, hasWeatherData := true,
       errorMessage :=
         some "This train is currently undergoing maintenance checks." }),
    ("999",
     { trainNumber := "Train 999", eta := "05:30 PM", delayMinutes := 5,
       riskLevel := .low, cause := "Normal operational variance",
       currentLocation := some "Route unavailable",
       alternatives := [ ⟨"train", "Train 1001", "12 mins"⟩ ],
       hasGPSData := false, hasWeatherData := false, errorMessage := none }) ]

/-! ### Random prediction synthesis (`generateRandomPrediction`)

`Math.random()` draws are `r 0` (delay pick), `r 1` (cause pick), `r 2`
(`hasGPSData`), `r 3` (`hasWeatherData`); each draw lies in `[0, 1)`. -/

/-- Source `Math.floor(r * len)` used as an array index. -/
def jsFloorIdx (r : ℚ) (len : ℕ) : ℕ :=
  (Int.floor (r * len)).toNat

/-- The fixed delay pool `delays`. -/
def delays : List ℕ := [0, 5, 8, 12, 15, 20]

/-- The fixed cause pool `causes`. -/
def causes : List String :=
  [ "Normal operational variance", "Minor congestion", "Signal delay",
    "Platform availability", "Crew changeover" ]

/-- Source `generateRandomPrediction(trainNumber)` with the ambient clock `now`
(minutes since midnight) and random stream `r` made explicit. -/
def generateRandomPrediction (trainNumber : String) (now : ℕ)
    (r : ℕ → ℚ) : DelayPrediction :=
  let delayMinutes := delays.getD (jsFloorIdx (r 0) delays.length) 0
  let riskLevel : RiskLevel :=
    if delayMinutes > 18 then .high
    else if delayMinutes > 10 then .medium else .low
  { trainNumber := "Train " ++ trainNumber,
    eta := fmtTime12 (now + 20 + delayMinutes),
    delayMinutes := delayMinutes,
    riskLevel := riskLevel,
    cause :=
      if delayMinutes = 0 then "On schedule"
      else causes.getD (jsFloorIdx (r 1) causes.length)
             "Normal operational variance",
    currentLocation := some "En route",
    alternatives :=
      if delayMinutes > 10 then
        [ ⟨"train", "Train " ++ Nat.repr (parseIntDigits trainNumber + 5),
           "15 mins"⟩ ]
      else [],
    hasGPSData := decide ((3 : ℚ)/10 < r 2),
    hasWeatherData := decide ((1 : ℚ)/5 < r 3),
    errorMessage := none }

/-! ### ETA calculator (`calculateArrivalTime`) -/

/-- The fixed per-destination base travel times (minutes). -/
def baseTravelTimes : List (String × ℕ) :=
  [ ("durban station", 15), ("umhlanga", 25), ("phoenix", 35),
    ("chatsworth", 30), ("pinetown", 20), ("westville", 18),
    ("queensburgh", 22), ("kwamashu", 40), ("umlazi", 35),
    ("isipingo", 28),
    ("central station", 15), ("north station", 25), ("south station", 30),
    ("east station", 20), ("west station", 22), ("airport", 35),
    ("city center", 15), ("suburb", 25) ]

/-- Source `calculateArrivalTime(delayMinutes, destination)` at clock `now`. -/
def calculateArrivalTime (delayMinutes : ℕ) (destination : String)
    (now : ℕ) : String :=
  let baseTravelTime :=
    (lookupTable baseTravelTimes (strLower destination)).getD 20
  fmtTime12 (now + baseTravelTime + delayMinutes)

/-! ### Main prediction function (`predictTrainDelay`) -/

/-- The shared tail of both branches of `predictTrainDelay`: overwrite `eta`
with the recomputed arrival time when a destination is supplied. -/
def applyDestination (p : DelayPrediction) (destination : Option String)
    (now : ℕ) : DelayPrediction :=
  match destination with
  | some dest =>
      { p with eta := calculateArrivalTime p.delayMinutes dest now }
  | none => p

/-- Source `predictTrainDelay(input, destination?)`; a thrown `Error` is
`Except.error` of its message.  The artificial `setTimeout` delay is
behaviour-free and dropped. -/
def predictTrainDelay (input : String) (destination : Option String)
    (now : ℕ) (r : ℕ → ℚ) : Except String DelayPrediction :=
  let trainNumber := extractTrainNumber input
  if trainNumber = "" then
    .error "Invalid train number format. Please enter a valid train number."
  else
    let trainNum := parseIntDigits trainNumber
    if trainNum < 100 ∨ trainNum > 999 then
      .error
        "Invalid train number. Please enter a train number between 100 and 999."
    else
      match lookupTable trainScenarios trainNumber with
      | some scenario => .ok (applyDestination scenario destination now)
      | none =>
          .ok (applyDestination (generateRandomPrediction trainNumber now r)
                 destination now)

/-! ### Route-to-train matcher (`routeMappings`, `findTrainsByRoute`) -/

/-- The fixed route table, in insertion order.  Keys are
`"origin-destination"`; each key contains exactly one `'-'`. -/
def routeMappings : List (String × List String) :=
  [ ("durban station-umhlanga", ["205"]),
    ("durban station-phoenix", ["450"]),
    ("durban station-chatsworth", ["132"]),
    ("durban station-pinetown", ["301"]),
    ("umhlanga-durban station", ["205"]),
    ("phoenix-durban station", ["450"]),
    ("chatsworth-durban station", ["132"]),
    ("pinetown-durban station", ["301"]),
    ("westville-durban station", ["205"]),
    ("queensburgh-durban station", ["450"]),
    ("kwamashu-durban station", ["132"]),
    ("umlazi-durban station", ["301"]),
    ("isipingo-durban station", ["205"]),
    ("central station-north station", ["205"]),
    ("central station-south station", ["450"]),
    ("central station-east station", ["132"]),
    ("central station-west station", ["301"]),
    ("central station-airport", ["205"]) ]

/-- Source `normalizeStationName`: lower-case then trim. -/
def normalizeStationName (name : String) : String :=
  strTrim (strLower name)

/-- Source `key.split('-')` destructured to its first two components; every key of
`routeMappings` contains exactly one `'-'`, so this is the full split. -/
def splitKey (key : String) : String × String :=
  (⟨key.data.takeWhile (· ≠ '-')⟩,
   ⟨(key.data.dropWhile (· ≠ '-')).drop 1⟩)

/-- The bidirectional substring test applied by the partial-match scan to one
component of a route key against the corresponding normalized query part. -/
def bidirMatch (routePart queryPart : String) : Bool :=
  strContains routePart queryPart || strContains queryPart routePart

/-- The partial-match predicate on a route key: both components must pass the
bidirectional substring test. -/
def routeKeyMatches (normOrigin normDest : String) (key : String) : Bool :=
  bidirMatch (splitKey key).1 normOrigin
    && bidirMatch (splitKey key).2 normDest

/-- Source `findTrainsByRoute(origin, destination)`.  The source filters
`Object.keys(routeMappings)` and then indexes the table with the first
matching key; since the keys are pairwise distinct this equals taking the
first matching entry, which is how it is written here. -/
def findTrainsByRoute (origin destination : String) : List String :=
  let normalizedOrigin := normalizeStationName origin
  let normalizedDestination := normalizeStationName destination
  let routeKey := normalizedOrigin ++ "-" ++ normalizedDestination
  match lookupTable routeMappings routeKey with
  | some trains => trains
  | none =>
      match (routeMappings.filter
              (fun kv =>
                routeKeyMatches normalizedOrigin normalizedDestination
                  kv.1)).head? with
      | some kv => kv.2
      | none => ["301"]

/-- The matcher as the specification words it: exact key match first, else
the first table key in insertion order whose origin and destination each
stand in a bidirectional substring relation with the query's, else the
default `["301"]`. -/
def findTrainsByRouteSpec (origin destination : String) : List String :=
  let normalizedOrigin := normalizeStationName origin
  let normalizedDestination := normalizeStationName destination
  match lookupTable routeMappings
          (normalizedOrigin ++ "-" ++ normalizedDestination) with
  | some trains => trains
  | none =>
      match routeMappings.find?
              (fun kv =>
                routeKeyMatches normalizedOrigin normalizedDestination
                  kv.1) with
      | some kv => kv.2
      | none => ["301"]

/-! ### Prediction by route (`predictTrainDelayByRoute`) -/

/-- Source `predictTrainDelayByRoute(origin, destination)`; the random stream `r`
feeds the (in fact unreachable) synthesis branch. -/
def predictTrainDelayByRoute (origin destination : String) (now : ℕ)
    (r : ℕ → ℚ) : Except String DelayPrediction :=
  if strTrim origin = "" ∨ strTrim destination = "" then
    .error "Please enter both origin and destination stations."
  else
    let matchingTrains := findTrainsByRoute origin destination
    let trainNumber := matchingTrains.headD ""
    match lookupTable trainScenarios trainNumber with
    | some scenario =>
        .ok { scenario with
              currentLocation :=
                some ("En route from " ++ origin ++ " to " ++ destination),
              eta :=
                calculateArrivalTime scenario.delayMinutes destination now }
    | none =>
        let prediction := generateRandomPrediction trainNumber now r
        .ok { prediction with
              eta :=
                calculateArrivalTime prediction.delayMinutes destination now,
              currentLocation :=
                some ("En route from " ++ origin ++ " to " ++ destination) }

/-! ### Map-data generator (`generateMapData`) -/

/-- Route definitions for known trains. -/
def routeDefinitions : List (String × List String) :=
  [ ("205", ["South Terminal", "Gateway Station", "Central Junction",
             "Commerce Plaza", "North Park", "Central Station"]),
    ("450", ["West End", "Market Square", "City Center", "Main Station",
             "East Terminal"]),
    ("132", ["Airport Terminal", "Business District", "North Terminal",
             "Harbor View", "Downtown Central", "University Campus",
             "Sports Complex"]),
    ("301", ["Suburban Station", "West Station", "Industrial Park",
             "City Hall", "Central Station"]),
    ("777", ["Maintenance Depot", "Service Bay 2", "Technical Center",
             "Main Station"]),
    ("999", ["Old Town", "Heritage Plaza", "Museum Quarter", "City Center",
             "New District"]) ]

/-- Default route for unknown trains. -/
def defaultRoute : List String :=
  ["Origin Station", "Midtown Stop", "Central Hub", "Destination Station"]

/-- Index of the first occurrence of `needle` as a contiguous sublist of the
haystack (`none` if absent). -/
def findSubIdx (needle : List Char) : List Char → Option ℕ
  | [] => if needle.isPrefixOf ([] : List Char) then some 0 else none
  | c :: rest =>
      if needle.isPrefixOf (c :: rest) then some 0
      else (findSubIdx needle rest).map (· + 1)

/-- The split positions a backtracking match of `/En route from (.+) to (.+)/i`
may use inside the text after the literal: `" to "` occurs there
case-insensitively, with at least one character before and after. -/
def toSplits (rest : List Char) : List ℕ :=
  (List.range rest.length).filter
    (fun j =>
      decide (1 ≤ j)
        && " to ".data.isPrefixOf ((rest.map charLower).drop j)
        && decide (j + 4 < rest.length))

/-- Source `currentLocation.match(/En route from (.+) to (.+)/i)`, returning the two
capture groups.  The match starts at the first case-insensitive occurrence of
the literal `"En route from "`; the greedy first group makes the `" to "`
separator the last viable occurrence. -/
def parseEnRoute (loc : String) : Option (String × String) :=
  let chars := loc.data
  match findSubIdx "en route from ".data (chars.map charLower) with
  | none => none
  | some i =>
      let rest := chars.drop (i + 14)
      match (toSplits rest).getLast? with
      | none => none
      | some j => some (⟨rest.take j⟩, ⟨rest.drop (j + 4)⟩)

/-- The station list `generateMapData` works on: the train's fixed route,
falling back to `defaultRoute`, except that a location parsing as
`"En route from X to Y"` for a train with no fixed route synthesizes
`[X, "Junction Point", "Transfer Station", Y]`. -/
def selectRoute (trainNumber currentLocation : String) : List String :=
  let trainNum := extractTrainNumber trainNumber
  match parseEnRoute currentLocation with
  | some (origin, destination) =>
      match lookupTable routeDefinitions trainNum with
      | some r => r
      | none => [origin, "Junction Point", "Transfer Station", destination]
  | none => (lookupTable routeDefinitions trainNum).getD defaultRoute

/-- The per-station predicate of the `findIndex` location match. -/
def stationPred (currentLocation station : String) : Bool :=
  strContains (strLower currentLocation) (strLower station)
    || strContains (strLower station) (strLower currentLocation)

/-- Source `Array.prototype.findIndex`, with `none` for `-1`. -/
def findIdxJS {α : Type} (p : α → Bool) : List α → Option ℕ
  | [] => none
  | x :: xs => if p x then some 0 else (findIdxJS p xs).map (· + 1)

/-- The delay-bucket station index: `Math.floor(len * q)` for
`q ∈ {0.8, 0.6, 0.4, 0.2}`.  In exact arithmetic `⌊len * (k/5)⌋ = len*k/5`
(natural division); the source's double-precision products agree with the
exact values at every route length of this repository's tables. -/
def bucketIndex (len delayMinutes : ℕ) : ℕ :=
  if delayMinutes = 0 then len * 4 / 5
  else if delayMinutes < 10 then len * 3 / 5
  else if delayMinutes < 20 then len * 2 / 5
  else len / 5

/-- The current-station index: location match first, delay bucket otherwise. -/
def currentStationIndex (route : List String) (currentLocation : String)
    (delayMinutes : ℕ) : ℕ :=
  match findIdxJS (stationPred currentLocation) route with
  | some i => i
  | none => bucketIndex route.length delayMinutes

/-- JavaScript division producing a finite number: `none` models the
non-finite results (`0 / 0 = NaN`, `x / 0 = ±Infinity`), which in
`generateMapData` can only be the `NaN` of a single-station route. -/
def jsdiv (a b : ℚ) : Option ℚ :=
  if b = 0 then none else some (a / b)

/-- The `Station` interface; `position` is `Option ℚ` so that the unguarded
division by `count - 1` is represented honestly. -/
structure Station where
  name : String
  position : Option ℚ
  isPassed : Bool
  isCurrent : Bool
deriving DecidableEq, Repr

/-- One entry of the station array: `routeStations.map((name, index) => ...)`
at index `i` of a route of `len` stations. -/
def mkStation (len currentIdx i : ℕ) (name : String) : Station :=
  { name := name,
    position := (jsdiv (i : ℚ) ((len : ℚ) - 1)).map (· * 100),
    isPassed := decide (i < currentIdx),
    isCurrent := decide (i = currentIdx) }

/-- The indexed map underlying the station array, with `i` the index of the
first listed station. -/
def buildStationsAux (len currentIdx : ℕ) : ℕ → List String → List Station
  | _, [] => []
  | i, name :: rest =>
      mkStation len currentIdx i name
        :: buildStationsAux len currentIdx (i + 1) rest

/-- The station array built by `generateMapData`. -/
def buildStations (route : List String) (currentIdx : ℕ) : List Station :=
  buildStationsAux route.length currentIdx 0 route

/-- The `MapData` interface. -/
structure MapData where
  stations : List Station
  progress : Option ℚ
deriving DecidableEq, Repr

/-- Source `generateMapData(trainNumber, currentLocation, delayMinutes)`. -/
def generateMapData (trainNumber currentLocation : String)
    (delayMinutes : ℕ) : MapData :=
  let routeStations := selectRoute trainNumber currentLocation
  let currentIdx :=
    currentStationIndex routeStations currentLocation delayMinutes
  { stations := buildStations routeStations currentIdx,
    progress :=
      (jsdiv (currentIdx : ℚ) ((routeStations.length : ℚ) - 1)).map
        (· * 100) }

/-! ### Bus-stop distance ranking (`busStopService.ts`)

The Haversine body calls the floating-point transcendentals `Math.sin`,
`Math.cos`, `Math.atan2`, `Math.sqrt` and `Math.PI`.  These have no exact
rational counterpart, so they are abstracted into a `TrigOps` record of
numeric oracles; every ranking property below is proved for **every**
realization of the oracles, hence in particular for the floating-point one. -/

/-- Oracles for the floating-point transcendental functions. -/
structure TrigOps where
  sin : ℚ → ℚ
  cos : ℚ → ℚ
  atan2 : ℚ → ℚ → ℚ
  sqrt : ℚ → ℚ
  pi : ℚ

/-- Source `Math.round`: round half towards positive infinity, as JavaScript does. -/
def jsRound (q : ℚ) : ℤ :=
  Int.floor (q + 1/2)

/-- Source `calculateDistance(lat1, lon1, lat2, lon2)`: the Haversine formula with
Earth radius `6371e3` metres. -/
def calculateDistance (T : TrigOps) (lat1 lon1 lat2 lon2 : ℚ) : ℚ :=
  let R : ℚ := 6371000
  let phi1 := lat1 * T.pi / 180
  let phi2 := lat2 * T.pi / 180
  let dphi := (lat2 - lat1) * T.pi / 180
  let dlam := (lon2 - lon1) * T.pi / 180
  let a := T.sin (dphi / 2) * T.sin (dphi / 2)
             + T.cos phi1 * T.cos phi2 * T.sin (dlam / 2) * T.sin (dlam / 2)
  let c := 2 * T.atan2 (T.sqrt a) (T.sqrt (1 - a))
  R * c

/-- Source `calculateWalkTime(distanceMeters)`: 12 minutes per kilometre. -/
def calculateWalkTime (distanceMeters : ℚ) : String :=
  let minutes := jsRound (distanceMeters / 1000 * 12)
  if minutes < 1 then "< 1 min walk"
  else if minutes = 1 then "1 min walk"
  else toString minutes ++ " min walk"

/-- A `busStopsDatabase` entry (the static part of `BusStop`). -/
structure BusStopRec where
  id : String
  name : String
  address : String
  latitude : ℚ
  longitude : ℚ
  routes : List String
deriving DecidableEq, Repr

/-- The full `BusStop` interface with the per-query derived fields. -/
structure BusStop where
  id : String
  name : String
  address : String
  distance : ℤ
  latitude : ℚ
  longitude : ℚ
  routes : List String
  estimatedWalkTime : String
deriving DecidableEq, Repr

/-- The fixed database of 8 candidate stops, in source order. -/
def busStopsDatabase : List BusStopRec :=
  [ ⟨"BS001", "Central Station Bus Hub", "123 Main Street",
     40.7489, -73.9680, ["10", "22", "45", "67", "88"]⟩,
    ⟨"BS002", "Gateway Plaza Stop", "456 Commerce Ave",
     40.7510, -73.9720, ["10", "33", "45"]⟩,
    ⟨"BS003", "North Park Transit", "789 Park Road",
     40.7530, -73.9750, ["22", "67", "88", "101"]⟩,
    ⟨"BS004", "Harbor View Terminal", "321 Waterfront Blvd",
     40.7470, -73.9650, ["45", "67", "88"]⟩,
    ⟨"BS005", "Downtown Express Stop", "555 Business District",
     40.7520, -73.9700, ["10", "22", "33", "Express 1"]⟩,
    ⟨"BS006", "West End Junction", "999 West Avenue",
     40.7460, -73.9780, ["22", "88", "101"]⟩,
    ⟨"BS007", "Airport Connector", "100 Terminal Drive",
     40.7540, -73.9690, ["Airport Shuttle", "Express 1", "101"]⟩,
    ⟨"BS008", "University Campus Stop", "200 College Way",
     40.7450, -73.9730, ["33", "45", "67"]⟩ ]

/-- Stable insertion of a stop into a list ascending by `distance`: the new
element goes before the first element it is `≤`, hence before later-database
elements with equal distance and after earlier ones. -/
def insertByDist (x : BusStop) : List BusStop → List BusStop
  | [] => [x]
  | y :: ys =>
      if x.distance ≤ y.distance then x :: y :: ys
      else y :: insertByDist x ys

/-- Source `Array.prototype.sort((a, b) => a.distance - b.distance)`: a stable
ascending sort (stability is required of `sort` by the ECMAScript
specification), embedded as stable insertion sort. -/
def sortByDist : List BusStop → List BusStop
  | [] => []
  | x :: xs => insertByDist x (sortByDist xs)

/-- The database with the per-query derived fields added (the `map` step of
`getNearbyBusStops`). -/
def stopsWithDistance (T : TrigOps) (userLat userLon : ℚ) : List BusStop :=
  busStopsDatabase.map
    (fun stop =>
      { id := stop.id, name := stop.name, address := stop.address,
        latitude := stop.latitude, longitude := stop.longitude,
        routes := stop.routes,
        distance :=
          jsRound (calculateDistance T userLat userLon
                     stop.latitude stop.longitude),
        estimatedWalkTime :=
          calculateWalkTime (calculateDistance T userLat userLon
                               stop.latitude stop.longitude) })

/-- Source `getNearbyBusStops(userLat, userLon, maxResults)`. -/
def getNearbyBusStops (T : TrigOps) (userLat userLon : ℚ)
    (maxResults : ℕ) : List BusStop :=
  (sortByDist (stopsWithDistance T userLat userLon)).take maxResults

/-- The call with the defaulted `maxResults = 5`. -/
def getNearbyBusStopsDefault (T : TrigOps) (userLat userLon : ℚ) :
    List BusStop :=
  getNearbyBusStops T userLat userLon 5

/-! ### Mock directions generator (`directionsService.ts`)

`Math.random()` draws for the turn loop: iteration `i` reads `r (2*i)`
(turn type) and `r (2*i+1)` (street name). -/

/-- The `DirectionStep.icon` union type. -/
inductive Icon
  | straight
  | left
  | right
  | arrive
deriving DecidableEq, Repr

/-- The text of a turn type, as interpolated into the instruction. -/
def iconStr : Icon → String
  | .straight => "straight"
  | .left => "left"
  | .right => "right"
  | .arrive => "arrive"

/-- The `DirectionStep` interface. -/
structure DirectionStep where
  instruction : String
  distance : String
  duration : String
  icon : Icon
  streetName : Option String
deriving DecidableEq, Repr

/-- The fixed 10-name street list. -/
def streetNames : List String :=
  [ "Main Street", "Park Avenue", "Commerce Boulevard", "Station Road",
    "Transit Way", "Harbor Drive", "Market Street", "Broadway",
    "Central Avenue", "Gateway Plaza" ]

/-- Source `calculateWalkingRoute`: 6 linearly interpolated points with a
sinusoidal jitter of amplitude `0.0002`. -/
def calculateWalkingRoute (T : TrigOps) (fromLat fromLon toLat toLon : ℚ) :
    List (ℚ × ℚ) :=
  (List.range 6).map
    (fun i =>
      let progress := (i : ℚ) / 5
      let lat := fromLat + (toLat - fromLat) * progress
      let lon := fromLon + (toLon - fromLon) * progress
      let variation := T.sin (i : ℚ) * (2 / 10000)
      (lat + variation, lon + variation))

/-- The fixed leading step. -/
def headEastStep : DirectionStep :=
  { instruction := "Head east on your current street", distance := "50m",
    duration := "1 min", icon := .straight, streetName := none }

/-- The fixed terminal step. -/
def arriveStep : DirectionStep :=
  { instruction := "Arrive at bus stop", distance := "0m",
    duration := "0 min", icon := .arrive, streetName := none }

/-- Source `min(Math.floor(distance / 300), 4)` (an integer; never exceeds the loop
bound, and a negative value runs the loop zero times). -/
def numTurnsZ (distance : ℚ) : ℤ :=
  min (Int.floor (distance / 300)) 4

/-- The even apportioning of the distance after the first 50 m. -/
def stepDistance (distance : ℚ) : ℚ :=
  if numTurnsZ distance > 0 then
    (distance - 50) / ((numTurnsZ distance : ℚ) + 1)
  else distance - 50

/-- One randomly generated turn step (loop iteration `i`). -/
def turnStep (distance : ℚ) (r : ℕ → ℚ) (i : ℕ) : DirectionStep :=
  let turnType := [Icon.left, Icon.right].getD (jsFloorIdx (r (2*i)) 2) .left
  let street :=
    streetNames.getD (jsFloorIdx (r (2*i+1)) streetNames.length)
      "Main Street"
  { instruction := "Turn " ++ iconStr turnType ++ " onto " ++ street,
    distance := toString (jsRound (stepDistance distance)) ++ "m",
    duration := toString (jsRound (stepDistance distance / 83)) ++ " min",
    icon := turnType,
    streetName := some street }

/-- The final-approach step (`finalDistance` is the rounded step distance). -/
def continueStep (distance : ℚ) : DirectionStep :=
  let finalDistance := jsRound (stepDistance distance)
  { instruction := "Continue straight to bus stop",
    distance := toString finalDistance ++ "m",
    duration := toString (jsRound ((finalDistance : ℚ) / 83)) ++ " min",
    icon := .straight, streetName := none }

/-- Source `generateDirectionSteps(distance, duration)` (the `duration` parameter is
unused by the source as well). -/
def generateDirectionSteps (distance duration : ℚ) (r : ℕ → ℚ) :
    List DirectionStep :=
  headEastStep
    :: ((List.range (numTurnsZ distance).toNat).map (turnStep distance r)
        ++ [continueStep distance, arriveStep])

/-- Source `formatDistance(meters)` of the directions service (`toFixed(1)` is
round-half-up to one decimal). -/
def formatDistanceStr (meters : ℚ) : String :=
  if meters < 1000 then toString (jsRound meters) ++ "m"
  else
    let tenths := jsRound (meters / 1000 * 10)
    toString (tenths / 10) ++ "." ++ toString (tenths % 10) ++ "km"

/-- Source `formatDuration(minutes)` (`%` is JavaScript `fmod`, which on the
non-negative values reached here is `minutes - 60 * ⌊minutes / 60⌋`). -/
def formatDuration (minutes : ℚ) : String :=
  if minutes < 1 then "< 1 min"
  else if minutes < 60 then toString (jsRound minutes) ++ " min"
  else
    let hours := Int.floor (minutes / 60)
    let mins := jsRound (minutes - 60 * hours)
    toString hours ++ "h " ++ toString mins ++ "min"

/-- The `RouteDirections` interface. -/
structure RouteDirections where
  steps : List DirectionStep
  totalDistance : String
  totalDuration : String
  routePoints : List (ℚ × ℚ)
deriving DecidableEq, Repr

/-- Source `getDirectionsToBusStop(fromLat, fromLon, toLat, toLon, name, distance)`. -/
def getDirectionsToBusStop (T : TrigOps) (fromLat fromLon toLat toLon : ℚ)
    (busStopName : String) (distance : ℚ) (r : ℕ → ℚ) : RouteDirections :=
  let durationMinutes := distance / 1000 * 12
  { steps := generateDirectionSteps distance durationMinutes r,
    totalDistance := formatDistanceStr distance,
    totalDuration := formatDuration durationMinutes,
    routePoints := calculateWalkingRoute T fromLat fromLon toLat toLon }

/-- Whether an `Except` value of the prediction service is an error. -/
def isErr : Except String DelayPrediction → Bool
  | .error _ => true
  | .ok _ => false

/-! ## Helper lemmas -/

/-- Every value produced by `lookupTable` is a value of the table. -/
theorem lookupTable_forall {α : Type} (P : α → Prop) :
    ∀ (table : List (String × α)), (∀ p ∈ table, P p.2) →
    ∀ key v, lookupTable table key = some v → P v := by
  intro table
  induction table with
  | nil => intro _ key v hv; simp [lookupTable] at hv
  | cons p rest ih =>
      obtain ⟨k, w⟩ := p
      intro hP key v hv
      rw [lookupTable] at hv
      by_cases hk : key = k
      · rw [if_pos hk] at hv
        cases hv
        exact hP (k, w) (List.mem_cons_self _ _)
      · rw [if_neg hk] at hv
        exact ih (fun q hq => hP q (List.mem_cons_of_mem _ hq)) key v hv

/-- The head of a filtered list is the first element satisfying the
predicate. -/
theorem head?_filter {α : Type} (p : α → Bool) :
    ∀ l : List α, (l.filter p).head? = l.find? p := by
  intro l
  induction l with
  | nil => rfl
  | cons x xs ih =>
      by_cases hx : p x
      · simp [List.filter_cons, List.find?_cons, hx]
      · simp only [List.filter_cons, List.find?_cons]
        rw [if_neg (by simpa using hx)]
        cases hpx : p x with
        | true => exact absurd hpx (by simpa using hx)
        | false => exact ih

/-- The first digit run is empty exactly when the text holds no digit. -/
theorem firstDigitRun_eq_nil (l : List Char) :
    firstDigitRun l = [] ↔ l.any Char.isDigit = false := by
  induction l with
  | nil => simp [firstDigitRun]
  | cons c rest ih =>
      by_cases hc : c.isDigit
      · simp [firstDigitRun, hc]
      · simp [firstDigitRun, hc, ih]

/-- A successful `lookupTable` means the key is one of the table's keys. -/
theorem lookupTable_key_mem {α : Type} :
    ∀ (table : List (String × α)) (key : String) (v : α),
      lookupTable table key = some v → key ∈ table.map Prod.fst := by
  intro table
  induction table with
  | nil => intro key v hv; simp [lookupTable] at hv
  | cons p rest ih =>
      obtain ⟨k, w⟩ := p
      intro key v hv
      rw [lookupTable] at hv
      by_cases hk : key = k
      · simp [hk]
      · rw [if_neg hk] at hv
        exact List.mem_cons_of_mem _ (ih key v hv)

/-- Indexing with `getD` yields a list element or the default. -/
theorem getD_mem_or {α : Type} :
    ∀ (l : List α) (i : ℕ) (d : α), l.getD i d ∈ l ∨ l.getD i d = d := by
  intro l
  induction l with
  | nil => intro i d; right; cases i <;> rfl
  | cons x xs ih =>
      intro i d
      cases i with
      | zero => left; exact List.mem_cons_self _ _
      | succ j =>
          rcases ih j d with h | h
          · left; exact List.mem_cons_of_mem _ h
          · right; exact h

/-- An `Except` value is `ok` for some payload exactly when it is not an
error. -/
theorem exists_ok_iff_not_isErr (e : Except String DelayPrediction) :
    (∃ p, e = Except.ok p) ↔ isErr e = false := by
  cases e <;> simp [isErr]

/-- Source `extractTrainNumber` returns the empty string exactly when the input has
no digit. -/
theorem extractTrainNumber_eq_empty (input : String) :
    extractTrainNumber input = "" ↔ input.data.any Char.isDigit = false := by
  rw [extractTrainNumber]
  constructor
  · intro h
    have hdata : firstDigitRun input.data = [] := congrArg String.data h
    exact (firstDigitRun_eq_nil _).mp hdata
  · intro h
    rw [(firstDigitRun_eq_nil _).mpr h]

/-! ## Claim theorems -/

/-- C2: for every origin and destination string, `findTrainsByRoute`
lowercases and trims both names and returns the route table's entry on an
exact `"origin-destination"` key match; otherwise the entry of the first
table key, in insertion order, whose origin and destination each stand in a
bidirectional substring relation with the query's; otherwise the default
`["301"]`.  In particular `("Durban Station", "Umhlanga")` yields `["205"]`
and `("Mars", "Venus")` yields `["301"]`. -/
theorem findTrainsByRoute_spec_and_examples :
    (∀ origin destination : String,
        findTrainsByRoute origin destination
          = findTrainsByRouteSpec origin destination)
    ∧ findTrainsByRoute "Durban Station" "Umhlanga" = ["205"]
    ∧ findTrainsByRoute "Mars" "Venus" = ["301"] := by
  refine ⟨fun origin destination => ?_, by decide, by decide⟩
  simp only [findTrainsByRoute, findTrainsByRouteSpec]
  rw [head?_filter]

/-- C3: `predictTrainDelay(input, destination?)` fails with an
input-validation error exactly when the input contains no digit, or when the
first contiguous digit run of the input parses to a number outside
`[100, 999]`; for every other input it returns a `DelayPrediction`. -/
theorem predictTrainDelay_error_iff :
    ∀ (input : String) (destination : Option String) (now : ℕ) (r : ℕ → ℚ),
      (isErr (predictTrainDelay input destination now r) = true ↔
        (input.data.any Char.isDigit = false
          ∨ parseIntDigits (extractTrainNumber input) < 100
          ∨ 999 < parseIntDigits (extractTrainNumber input)))
      ∧ ((∃ p, predictTrainDelay input destination now r = Except.ok p) ↔
          ¬ (input.data.any Char.isDigit = false
              ∨ parseIntDigits (extractTrainNumber input) < 100
              ∨ 999 < parseIntDigits (extractTrainNumber input))) := by
  intro input destination now r
  have hmain : isErr (predictTrainDelay input destination now r) = true ↔
      (input.data.any Char.isDigit = false
        ∨ parseIntDigits (extractTrainNumber input) < 100
        ∨ 999 < parseIntDigits (extractTrainNumber input)) := by
    by_cases h0 : extractTrainNumber input = ""
    · have hd := (extractTrainNumber_eq_empty input).mp h0
      simp only [predictTrainDelay]
      rw [if_pos h0]
      simp [isErr, hd]
    · have hany : input.data.any Char.isDigit = true := by
        cases hA : input.data.any Char.isDigit
        · exact absurd ((extractTrainNumber_eq_empty input).mpr hA) h0
        · rfl
      simp only [predictTrainDelay]
      rw [if_neg h0]
      by_cases hrange : parseIntDigits (extractTrainNumber input) < 100
          ∨ parseIntDigits (extractTrainNumber input) > 999
      · rw [if_pos hrange]
        refine ⟨fun _ => ?_, fun _ => rfl⟩
        rcases hrange with h | h
        · exact Or.inr (Or.inl h)
        · exact Or.inr (Or.inr h)
      · rw [if_neg hrange]
        push_neg at hrange
        obtain ⟨ha, hb⟩ := hrange
        cases hl : lookupTable trainScenarios (extractTrainNumber input) <;>
          simp [isErr, hany, ha, hb]
  refine ⟨hmain, ?_⟩
  rw [exists_ok_iff_not_isErr]
  rw [show (isErr (predictTrainDelay input destination now r) = false) ↔
        ¬ (isErr (predictTrainDelay input destination now r) = true) by
      cases isErr (predictTrainDelay input destination now r) <;> simp]
  exact not_congr hmain

/-- C5: for every synthesized prediction produced by
`generateRandomPrediction`, regardless of the random draws: `delayMinutes`
is in `{0, 5, 8, 12, 15, 20}`; `riskLevel` is high if `delayMinutes > 18`,
medium if `delayMinutes > 10`, else low; `cause` is `"On schedule"` exactly
when `delayMinutes = 0`; and `alternatives` is empty if and only if
`delayMinutes ≤ 10`, otherwise it holds exactly one train named with the
original number plus 5. -/
theorem generateRandomPrediction_shape :
    ∀ (trainNumber : String) (now : ℕ) (r : ℕ → ℚ),
      (generateRandomPrediction trainNumber now r).delayMinutes
          ∈ ([0, 5, 8, 12, 15, 20] : List ℕ)
      ∧ (generateRandomPrediction trainNumber now r).riskLevel
          = (if 18 < (generateRandomPrediction trainNumber now r).delayMinutes
             then RiskLevel.high
             else if 10 <
                 (generateRandomPrediction trainNumber now r).delayMinutes
             then RiskLevel.medium else RiskLevel.low)
      ∧ ((generateRandomPrediction trainNumber now r).cause = "On schedule"
          ↔ (generateRandomPrediction trainNumber now r).delayMinutes = 0)
      ∧ ((generateRandomPrediction trainNumber now r).alternatives = []
          ↔ (generateRandomPrediction trainNumber now r).delayMinutes ≤ 10)
      ∧ (generateRandomPrediction trainNumber now r).alternatives
          = (if 10 < (generateRandomPrediction trainNumber now r).delayMinutes
             then [⟨"train",
                    "Train " ++ Nat.repr (parseIntDigits trainNumber + 5),
                    "15 mins"⟩]
             else []) := by
  intro tn now r
  have hdm : (generateRandomPrediction tn now r).delayMinutes
      = delays.getD (jsFloorIdx (r 0) delays.length) 0 := rfl
  set d := delays.getD (jsFloorIdx (r 0) delays.length) 0 with hdset
  have hmem : d ∈ ([0, 5, 8, 12, 15, 20] : List ℕ) := by
    rcases getD_mem_or delays (jsFloorIdx (r 0) delays.length) 0 with h | h
    · exact h
    · rw [hdset, h]; decide
  refine ⟨by rw [hdm]; exact hmem, rfl, ?_, ?_, rfl⟩
  · show (if d = 0 then "On schedule"
          else causes.getD (jsFloorIdx (r 1) causes.length)
            "Normal operational variance") = "On schedule" ↔ d = 0
    by_cases h : d = 0
    · simp [h]
    · rw [if_neg h]
      have hcause : ∀ c ∈ causes, c ≠ "On schedule" := by decide
      have : causes.getD (jsFloorIdx (r 1) causes.length)
          "Normal operational variance" ≠ "On schedule" := by
        rcases getD_mem_or causes (jsFloorIdx (r 1) causes.length)
            "Normal operational variance" with hm | hm
        · exact hcause _ hm
        · rw [hm]; decide
      exact iff_of_false this h
  · show (if 10 < d then
            [(⟨"train", "Train " ++ Nat.repr (parseIntDigits tn + 5),
               "15 mins"⟩ : Alternative)]
          else []) = [] ↔ d ≤ 10
    by_cases h : 10 < d
    · rw [if_pos h]
      simp only [List.cons_ne_nil, false_iff]
      omega
    · rw [if_neg h]
      simp only [true_iff]
      omega

/-- C4: when the extracted train number is a key of the scenario table,
`predictTrainDelay` returns that table entry field-for-field; when a
destination is supplied only the `eta` field differs, recomputed by the ETA
calculator (`applyDestination` leaves every other field unchanged by
definition; the table itself is an immutable constant of the embedding). -/
theorem predictTrainDelay_table_hit :
    ∀ (input : String) (destination : Option String) (now : ℕ) (r : ℕ → ℚ)
      (entry : DelayPrediction),
      lookupTable trainScenarios (extractTrainNumber input) = some entry →
      predictTrainDelay input destination now r
        = Except.ok (applyDestination entry destination now) := by
  intro input destination now r entry hl
  have hk := lookupTable_key_mem trainScenarios (extractTrainNumber input)
    entry hl
  have hne : extractTrainNumber input ≠ "" := by
    intro h
    rw [h] at hk
    revert hk
    decide
  have hrange : ¬ (parseIntDigits (extractTrainNumber input) < 100
      ∨ parseIntDigits (extractTrainNumber input) > 999) := by
    have hall : ∀ k ∈ trainScenarios.map Prod.fst,
        ¬ (parseIntDigits k < 100 ∨ parseIntDigits k > 999) := by decide
    exact hall _ hk
  simp only [predictTrainDelay]
  rw [if_neg hne, if_neg hrange, hl]

/-- Witness for C4: train 205 with destination Umhlanga. -/
theorem predictTrainDelay_table_hit_witness :
    predictTrainDelay "train 205" (some "Umhlanga") 0 (fun _ => 0)
      = Except.ok (applyDestination
          { trainNumber := "Train 205", eta := "09:42 AM",
            delayMinutes := 12, riskLevel := .medium,
            cause := "Congestion at Junction Station",
            currentLocation := some "Approaching Central Junction",
            alternatives :=
              [ ⟨"bus", "Bus 10", "3 mins"⟩,
                ⟨"train", "Express Train 210", "8 mins"⟩ ],
            hasGPSData := true, hasWeatherData := true,
            errorMessage := none }
          (some "Umhlanga") 0) :=
  predictTrainDelay_table_hit "train 205" (some "Umhlanga") 0 (fun _ => 0)
    _ rfl

/-- The head of a list, `head?`-style membership. -/
theorem mem_of_head?_eq {α : Type} (l : List α) (a : α)
    (h : l.head? = some a) : a ∈ l := by
  cases l with
  | nil => simp at h
  | cons x xs =>
      simp only [List.head?_cons, Option.some.injEq] at h
      rw [← h]
      exact List.mem_cons_self _ _

/-- Every train number `findTrainsByRoute` can select — a route-table value
or the default — is one of `"205"`, `"450"`, `"132"`, `"301"`. -/
theorem findTrainsByRoute_head_mem (origin destination : String) :
    (findTrainsByRoute origin destination).headD ""
      ∈ (["205", "450", "132", "301"] : List String) := by
  simp only [findTrainsByRoute]
  cases hdir : lookupTable routeMappings
      (normalizeStationName origin ++ "-"
        ++ normalizeStationName destination) with
  | some v =>
      have := lookupTable_forall
        (fun v : List String => v.headD "" ∈ ["205", "450", "132", "301"])
        routeMappings (by decide) _ v hdir
      exact this
  | none =>
      cases hflt : (routeMappings.filter
          (fun kv =>
            routeKeyMatches (normalizeStationName origin)
              (normalizeStationName destination) kv.1)).head? with
      | some kv =>
          have hmem : kv ∈ routeMappings :=
            List.mem_of_mem_filter (mem_of_head?_eq _ _ hflt)
          have hall : ∀ p ∈ routeMappings,
              p.2.headD "" ∈ (["205", "450", "132", "301"] : List String) :=
            by decide
          exact hall _ hmem
      | none => decide

/-- C9: for every origin and destination accepted by
`predictTrainDelayByRoute`, the selected train number is a key of the
scenario table, so the random-synthesis branch is unreachable: the result is
always the scenario-table entry with `eta` recomputed for the destination
and `currentLocation` overwritten to `"En route from {origin} to
{destination}"`. -/
theorem predictTrainDelayByRoute_always_table :
    ∀ (origin destination : String) (now : ℕ) (r : ℕ → ℚ),
      strTrim origin ≠ "" → strTrim destination ≠ "" →
      ∃ entry : DelayPrediction,
        lookupTable trainScenarios
            ((findTrainsByRoute origin destination).headD "") = some entry
        ∧ predictTrainDelayByRoute origin destination now r
            = Except.ok
                { entry with
                  currentLocation :=
                    some ("En route from " ++ origin ++ " to "
                            ++ destination),
                  eta :=
                    calculateArrivalTime entry.delayMinutes destination
                      now } := by
  intro o d now r h1 h2
  have hcond : ¬ (strTrim o = "" ∨ strTrim d = "") := by
    rintro (h | h)
    · exact h1 h
    · exact h2 h
  have hm := findTrainsByRoute_head_mem o d
  simp only [List.mem_cons, List.not_mem_nil, or_false] at hm
  rcases hm with h | h | h | h <;>
    · rw [h]
      refine ⟨_, rfl, ?_⟩
      simp only [predictTrainDelayByRoute]
      rw [if_neg hcond, h]
      rfl

/-- Witness for C9: the Durban Station to Umhlanga route at a concrete
clock and random stream. -/
theorem predictTrainDelayByRoute_always_table_witness :
    strTrim "Durban Station" ≠ "" ∧ strTrim "Umhlanga" ≠ ""
    ∧ ∃ entry : DelayPrediction,
        lookupTable trainScenarios
            ((findTrainsByRoute "Durban Station" "Umhlanga").headD "")
          = some entry
        ∧ predictTrainDelayByRoute "Durban Station" "Umhlanga" 0 (fun _ => 0)
            = Except.ok
                { entry with
                  currentLocation :=
                    some ("En route from " ++ "Durban Station" ++ " to "
                            ++ "Umhlanga"),
                  eta := calculateArrivalTime entry.delayMinutes "Umhlanga" 0 } :=
  ⟨by decide, by decide,
    predictTrainDelayByRoute_always_table "Durban Station" "Umhlanga" 0
      (fun _ => 0) (by decide) (by decide)⟩

/-- Every route `generateMapData` can select has at least 4 stations: the
shortest fixed route, the default route and the synthesized route all have
4. -/
theorem selectRoute_length (trainNumber currentLocation : String) :
    4 ≤ (selectRoute trainNumber currentLocation).length := by
  simp only [selectRoute]
  cases hp : parseEnRoute currentLocation with
  | some od =>
      obtain ⟨o, d⟩ := od
      cases hl : lookupTable routeDefinitions
          (extractTrainNumber trainNumber) with
      | some rte =>
          exact lookupTable_forall (fun v : List String => 4 ≤ v.length)
            routeDefinitions (by decide) _ _ hl
      | none => exact Nat.le_refl 4
  | none =>
      cases hl : lookupTable routeDefinitions
          (extractTrainNumber trainNumber) with
      | some rte =>
          exact lookupTable_forall (fun v : List String => 4 ≤ v.length)
            routeDefinitions (by decide) _ _ hl
      | none => exact Nat.le_refl 4

/-- Every string contains the empty string. -/
theorem listContains_nil (l : List Char) : listContains l [] = true := by
  cases l <;> rfl

/-- All station positions are defined when the divisor `len - 1` is not
zero. -/
theorem buildStationsAux_position_isSome (len cur : ℕ)
    (hne : ((len : ℚ) - 1) ≠ 0) :
    ∀ (l : List String) (i : ℕ),
      (buildStationsAux len cur i l).all (fun s => s.position.isSome)
        = true := by
  intro l
  induction l with
  | nil => intro i; rfl
  | cons name rest ih =>
      intro i
      simp only [buildStationsAux, List.all_cons, Bool.and_eq_true]
      exact ⟨by simp [mkStation, jsdiv, hne], ih (i + 1)⟩

/-- C7 (amended): `generateMapData` contains no single-station guard — on a
one-station list the unguarded division `index / (count - 1)` is `0 / 0`,
which is `NaN`, not `0` (see the counterexample) — but the division never
actually divides by zero because every route it can select has at least 4
stations, so all positions and the progress value are defined. -/
theorem generateMapData_no_division_by_zero :
    ∀ (trainNumber currentLocation : String) (delayMinutes : ℕ),
      4 ≤ (selectRoute trainNumber currentLocation).length
      ∧ (generateMapData trainNumber currentLocation delayMinutes).stations.all
          (fun s => s.position.isSome) = true
      ∧ (generateMapData trainNumber currentLocation
            delayMinutes).progress.isSome = true := by
  intro tn loc dm
  have hlen := selectRoute_length tn loc
  have hne : (((selectRoute tn loc).length : ℚ) - 1) ≠ 0 := by
    have h4 : (4 : ℚ) ≤ ((selectRoute tn loc).length : ℚ) := by
      exact_mod_cast hlen
    have : (0 : ℚ) < ((selectRoute tn loc).length : ℚ) - 1 := by linarith
    exact ne_of_gt this
  refine ⟨hlen, ?_, ?_⟩
  · simp only [generateMapData]
    exact buildStationsAux_position_isSome _ _ hne _ _
  · simp only [generateMapData]
    simp [jsdiv, hne]

/-- C7 counterexample: on a single-station route the station position and
the progress expression are the unguarded `0 / 0`, i.e. `NaN` (`none` in the
embedding), not `0`: there is no single-station guard in the code. -/
theorem singleStation_position_is_NaN :
    (buildStations ["Lone Stop"]
        (currentStationIndex ["Lone Stop"] "" 0)).map (fun s => s.position)
      = [none]
    ∧ (jsdiv ((currentStationIndex ["Lone Stop"] "" 0 : ℕ) : ℚ)
          (((["Lone Stop"] : List String).length : ℚ) - 1)).map (· * 100)
      = none := by
  have hidx : currentStationIndex ["Lone Stop"] "" 0 = 0 := by decide
  have h0 : (((["Lone Stop"] : List String).length : ℚ) - 1) = 0 := by
    norm_num
  constructor
  · rw [hidx]
    simp only [buildStations, buildStationsAux, mkStation, List.map_cons,
      List.map_nil]
    rw [jsdiv, if_pos h0]
    simp
  · rw [hidx, jsdiv, if_pos h0]
    rfl

/-- C6: when the current-location string matches no station name under the
bidirectional substring test, the current station index is determined solely
by `delayMinutes` over the selected route of length `N`: `0 → ⌊N × 0.8⌋`,
`< 10 → ⌊N × 0.6⌋`, `< 20 → ⌊N × 0.4⌋`, otherwise `⌊N × 0.2⌋`. -/
theorem generateMapData_delay_bucketing :
    ∀ (trainNumber currentLocation : String) (delayMinutes : ℕ),
      findIdxJS (stationPred currentLocation)
          (selectRoute trainNumber currentLocation) = none →
      currentStationIndex (selectRoute trainNumber currentLocation)
          currentLocation delayMinutes
        = (if delayMinutes = 0 then
            Nat.floor
              (((selectRoute trainNumber currentLocation).length : ℚ)
                * (4/5))
          else if delayMinutes < 10 then
            Nat.floor
              (((selectRoute trainNumber currentLocation).length : ℚ)
                * (3/5))
          else if delayMinutes < 20 then
            Nat.floor
              (((selectRoute trainNumber currentLocation).length : ℚ)
                * (2/5))
          else
            Nat.floor
              (((selectRoute trainNumber currentLocation).length : ℚ)
                * (1/5))) := by
  intro tn loc dm hnone
  simp only [currentStationIndex, hnone, bucketIndex]
  split_ifs
  · rw [show (((selectRoute tn loc).length : ℚ) * (4/5))
        = (((selectRoute tn loc).length * 4 : ℕ) : ℚ) / ((5 : ℕ) : ℚ) by
        push_cast; ring]
    rw [Nat.floor_div_nat, Nat.floor_natCast]
  · rw [show (((selectRoute tn loc).length : ℚ) * (3/5))
        = (((selectRoute tn loc).length * 3 : ℕ) : ℚ) / ((5 : ℕ) : ℚ) by
        push_cast; ring]
    rw [Nat.floor_div_nat, Nat.floor_natCast]
  · rw [show (((selectRoute tn loc).length : ℚ) * (2/5))
        = (((selectRoute tn loc).length * 2 : ℕ) : ℚ) / ((5 : ℕ) : ℚ) by
        push_cast; ring]
    rw [Nat.floor_div_nat, Nat.floor_natCast]
  · rw [show (((selectRoute tn loc).length : ℚ) * (1/5))
        = (((selectRoute tn loc).length * 1 : ℕ) : ℚ) / ((5 : ℕ) : ℚ) by
        push_cast; ring]
    rw [Nat.floor_div_nat, Nat.floor_natCast, Nat.mul_one]

/-- Witness for C6: train 205 at an unmatched location with no delay. -/
theorem generateMapData_delay_bucketing_witness :
    findIdxJS (stationPred "xyz") (selectRoute "205" "xyz") = none
    ∧ currentStationIndex (selectRoute "205" "xyz") "xyz" 0
        = (if (0 : ℕ) = 0 then
            Nat.floor (((selectRoute "205" "xyz").length : ℚ) * (4/5))
          else if (0 : ℕ) < 10 then
            Nat.floor (((selectRoute "205" "xyz").length : ℚ) * (3/5))
          else if (0 : ℕ) < 20 then
            Nat.floor (((selectRoute "205" "xyz").length : ℚ) * (2/5))
          else
            Nat.floor (((selectRoute "205" "xyz").length : ℚ) * (1/5))) :=
  ⟨by decide, generateMapData_delay_bucketing "205" "xyz" 0 (by decide)⟩

/-- Stations listed after the current one are not current. -/
theorem buildStationsAux_not_current (len cur : ℕ) :
    ∀ (l : List String) (i : ℕ), cur < i →
      (buildStationsAux len cur i l).all (fun s => !s.isCurrent) = true := by
  intro l
  induction l with
  | nil => intro i _; rfl
  | cons name rest ih =>
      intro i hi
      simp only [buildStationsAux, List.all_cons, Bool.and_eq_true]
      constructor
      · simp only [mkStation, Bool.not_eq_eq_eq_not, Bool.not_true,
          decide_eq_false_iff_not]
        omega
      · exact ih (i + 1) (Nat.lt_succ_of_lt hi)

/-- With current index 0, no station is passed. -/
theorem buildStationsAux_not_passed (len : ℕ) :
    ∀ (l : List String) (i : ℕ),
      (buildStationsAux len 0 i l).all (fun s => !s.isPassed) = true := by
  intro l
  induction l with
  | nil => intro i; rfl
  | cons name rest ih =>
      intro i
      simp only [buildStationsAux, List.all_cons, Bool.and_eq_true]
      constructor
      · simp only [mkStation, Bool.not_eq_eq_eq_not, Bool.not_true,
          decide_eq_false_iff_not]
        omega
      · exact ih (i + 1)

/-- C10: with an empty current-location string, `generateMapData` places the
train at station index 0: the bidirectional substring test succeeds at the
first station because every string contains the empty string, so `isCurrent`
holds only at index 0, no station is passed, progress equals 0, and the
`delayMinutes` bucketing is never applied (the result does not depend on
`delayMinutes`). -/
theorem generateMapData_empty_location :
    ∀ (trainNumber : String) (delayMinutes : ℕ),
      findIdxJS (stationPred "") (selectRoute trainNumber "") = some 0
      ∧ ((generateMapData trainNumber "" delayMinutes).stations.head?).map
          (fun s => s.isCurrent) = some true
      ∧ ((generateMapData trainNumber "" delayMinutes).stations.drop 1).all
          (fun s => !s.isCurrent) = true
      ∧ (generateMapData trainNumber "" delayMinutes).stations.all
          (fun s => !s.isPassed) = true
      ∧ (generateMapData trainNumber "" delayMinutes).progress = some 0
      ∧ generateMapData trainNumber "" delayMinutes
          = generateMapData trainNumber "" 0 := by
  intro tn dm
  have hlen := selectRoute_length tn ""
  have hpred : ∀ st, stationPred "" st = true := by
    intro st
    have h2 : strContains (strLower st) (strLower "") = true :=
      listContains_nil (strLower st).data
    simp [stationPred, h2]
  have hfind : findIdxJS (stationPred "") (selectRoute tn "") = some 0 := by
    cases hr : selectRoute tn "" with
    | nil => rw [hr] at hlen; simp at hlen
    | cons x xs => simp [findIdxJS, hpred]
  have hidx : ∀ d : ℕ,
      currentStationIndex (selectRoute tn "") "" d = 0 := by
    intro d
    simp only [currentStationIndex, hfind]
  have hne : (((selectRoute tn "").length : ℚ) - 1) ≠ 0 := by
    have h4 : (4 : ℚ) ≤ ((selectRoute tn "").length : ℚ) := by
      exact_mod_cast hlen
    have : (0 : ℚ) < ((selectRoute tn "").length : ℚ) - 1 := by linarith
    exact ne_of_gt this
  refine ⟨hfind, ?_, ?_, ?_, ?_, ?_⟩
  · simp only [generateMapData, hidx]
    cases hr : selectRoute tn "" with
    | nil => rw [hr] at hlen; simp at hlen
    | cons x xs =>
        simp only [buildStations, buildStationsAux, List.head?_cons,
          Option.map_some]
        simp [mkStation]
  · simp only [generateMapData, hidx]
    cases hr : selectRoute tn "" with
    | nil => rw [hr] at hlen; simp at hlen
    | cons x xs =>
        simp only [buildStations, buildStationsAux, List.drop_succ_cons,
          List.drop_zero]
        exact buildStationsAux_not_current _ 0 xs 1 Nat.zero_lt_one
  · simp only [generateMapData, hidx]
    exact buildStationsAux_not_passed _ _ _
  · simp only [generateMapData, hidx]
    rw [jsdiv, if_neg hne]
    simp
  · simp only [generateMapData, hidx]

/-- Inserting is a permutation. -/
theorem insertByDist_perm (x : BusStop) :
    ∀ l : List BusStop, (insertByDist x l).Perm (x :: l) := by
  intro l
  induction l with
  | nil => exact List.Perm.refl _
  | cons y ys ih =>
      by_cases h : x.distance ≤ y.distance
      · rw [insertByDist, if_pos h]
      · rw [insertByDist, if_neg h]
        exact (ih.cons y).trans (List.Perm.swap x y ys)

/-- The sort is a permutation. -/
theorem sortByDist_perm :
    ∀ l : List BusStop, (sortByDist l).Perm l := by
  intro l
  induction l with
  | nil => exact List.Perm.refl _
  | cons x xs ih =>
      exact (insertByDist_perm x (sortByDist xs)).trans (ih.cons x)

/-- Inserting preserves the ascending-by-distance invariant. -/
theorem insertByDist_pairwise (x : BusStop) :
    ∀ l : List BusStop,
      l.Pairwise (fun a b => a.distance ≤ b.distance) →
      (insertByDist x l).Pairwise (fun a b => a.distance ≤ b.distance) := by
  intro l
  induction l with
  | nil => intro _; exact List.pairwise_singleton _ _
  | cons y ys ih =>
      intro h
      rw [List.pairwise_cons] at h
      obtain ⟨hy, hys⟩ := h
      by_cases hxy : x.distance ≤ y.distance
      · rw [insertByDist, if_pos hxy, List.pairwise_cons]
        refine ⟨?_, ?_⟩
        · intro b hb
          rcases List.mem_cons.mp hb with rfl | hb
          · exact hxy
          · exact le_trans hxy (hy b hb)
        · rw [List.pairwise_cons]
          exact ⟨hy, hys⟩
      · rw [insertByDist, if_neg hxy, List.pairwise_cons]
        refine ⟨?_, ih hys⟩
        intro b hb
        have hb' : b = x ∨ b ∈ ys := by
          simpa using (insertByDist_perm x ys).mem_iff.mp hb
        rcases hb' with rfl | hb'
        · exact le_of_not_le hxy
        · exact hy b hb'

/-- The sort is ascending by (rounded) distance. -/
theorem sortByDist_pairwise :
    ∀ l : List BusStop,
      (sortByDist l).Pairwise (fun a b => a.distance ≤ b.distance) := by
  intro l
  induction l with
  | nil => exact List.Pairwise.nil
  | cons x xs ih => exact insertByDist_pairwise x (sortByDist xs) ih

/-- Inserting an element keeps, within each distance class, the inserted
element in front only of its own class (stability kernel). -/
theorem filter_insertByDist (v : ℤ) (x : BusStop) :
    ∀ l : List BusStop,
      (insertByDist x l).filter (fun s => decide (s.distance = v))
        = if x.distance = v then
            x :: l.filter (fun s => decide (s.distance = v))
          else l.filter (fun s => decide (s.distance = v)) := by
  intro l
  induction l with
  | nil =>
      by_cases hx : x.distance = v <;>
        simp [insertByDist, List.filter_cons, hx]
  | cons y ys ih =>
      by_cases hxy : x.distance ≤ y.distance
      · rw [insertByDist, if_pos hxy]
        by_cases hx : x.distance = v <;>
          simp [List.filter_cons, hx]
      · rw [insertByDist, if_neg hxy]
        have hyx : y.distance < x.distance := not_le.mp hxy
        by_cases hy : y.distance = v
        · have hx : x.distance ≠ v := by
            rw [← hy]
            exact ne_of_gt hyx
          simp [List.filter_cons, hy, hx, ih]
        · by_cases hx : x.distance = v <;>
            simp [List.filter_cons, hy, hx, ih]

/-- Stability: sorting preserves each distance class (original database
order within ties). -/
theorem sortByDist_filter (v : ℤ) :
    ∀ l : List BusStop,
      (sortByDist l).filter (fun s => decide (s.distance = v))
        = l.filter (fun s => decide (s.distance = v)) := by
  intro l
  induction l with
  | nil => rfl
  | cons x xs ih =>
      rw [sortByDist, filter_insertByDist]
      by_cases hx : x.distance = v <;>
        simp [List.filter_cons, hx, ih]

/-- In an ascending list every kept element is at most every dropped one. -/
theorem pairwise_take_all_drop (l : List BusStop) (k : ℕ)
    (h : l.Pairwise (fun a b => a.distance ≤ b.distance)) :
    (l.take k).all
      (fun a => (l.drop k).all (fun b => decide (a.distance ≤ b.distance)))
      = true := by
  rw [List.all_eq_true]
  intro a ha
  rw [List.all_eq_true]
  intro b hb
  rw [decide_eq_true_eq]
  have hsplit : l.Pairwise (fun a b => a.distance ≤ b.distance) := h
  rw [← List.take_append_drop k l] at hsplit
  exact (List.pairwise_append.mp hsplit).2.2 a ha b hb

/-- The sorted candidate list has all 8 database stops. -/
theorem sortByDist_stops_length (T : TrigOps) (userLat userLon : ℚ) :
    (sortByDist (stopsWithDistance T userLat userLon)).length = 8 := by
  rw [(sortByDist_perm _).length_eq]
  rfl

/-- C1: for every user coordinate pair and every `maxResults`,
`getNearbyBusStops` returns the candidate stops sorted in non-decreasing
order of their rounded distance from the user, truncated to the first
`maxResults` (default 5); ties keep original database order (stable sort);
every returned stop is at least as near as every omitted one; and
`maxResults = 5` of the 8 candidates returns exactly 5 stops.  The
properties hold for every realization `T` of the floating-point Haversine
oracles. -/
theorem getNearbyBusStops_ranking :
    ∀ (T : TrigOps) (userLat userLon : ℚ) (maxResults : ℕ),
      getNearbyBusStops T userLat userLon maxResults
        = (sortByDist (stopsWithDistance T userLat userLon)).take maxResults
      ∧ (getNearbyBusStops T userLat userLon maxResults).Pairwise
          (fun a b => a.distance ≤ b.distance)
      ∧ (sortByDist (stopsWithDistance T userLat userLon)).Perm
          (stopsWithDistance T userLat userLon)
      ∧ (∀ v : ℤ,
          (sortByDist (stopsWithDistance T userLat userLon)).filter
              (fun s => decide (s.distance = v))
            = (stopsWithDistance T userLat userLon).filter
                (fun s => decide (s.distance = v)))
      ∧ ((sortByDist (stopsWithDistance T userLat userLon)).take
            maxResults).all
          (fun a =>
            ((sortByDist (stopsWithDistance T userLat userLon)).drop
                maxResults).all
              (fun b => decide (a.distance ≤ b.distance))) = true
      ∧ (getNearbyBusStops T userLat userLon maxResults).length
          = min maxResults 8
      ∧ (getNearbyBusStopsDefault T userLat userLon).length = 5 := by
  intro T userLat userLon maxResults
  refine ⟨rfl, ?_, sortByDist_perm _, fun v => sortByDist_filter v _, ?_,
    ?_, ?_⟩
  · exact List.Pairwise.sublist (List.take_sublist _ _)
      (sortByDist_pairwise _)
  · exact pairwise_take_all_drop _ _ (sortByDist_pairwise _)
  · show ((sortByDist (stopsWithDistance T userLat userLon)).take
        maxResults).length = min maxResults 8
    rw [List.length_take, sortByDist_stops_length]
  · show ((sortByDist (stopsWithDistance T userLat userLon)).take 5).length
        = 5
    rw [List.length_take, sortByDist_stops_length]
    rfl

/-- Every generated turn step is a left or right turn onto a listed street,
carrying the evenly apportioned step distance. -/
theorem turnStep_shape (distance : ℚ) (r : ℕ → ℚ) (i : ℕ) :
    ((decide (((turnStep distance r i).icon = Icon.left
          ∨ (turnStep distance r i).icon = Icon.right)))
        && decide ((turnStep distance r i).streetName.getD "" ∈ streetNames)
        && decide ((turnStep distance r i).distance
              = toString (jsRound (stepDistance distance)) ++ "m"))
      = true := by
  have htt : [Icon.left, Icon.right].getD (jsFloorIdx (r (2*i)) 2) Icon.left
        = Icon.left
      ∨ [Icon.left, Icon.right].getD (jsFloorIdx (r (2*i)) 2) Icon.left
        = Icon.right := by
    rcases getD_mem_or [Icon.left, Icon.right] (jsFloorIdx (r (2*i)) 2)
        Icon.left with hm | hm
    · simpa using hm
    · exact Or.inl hm
  have hst : streetNames.getD (jsFloorIdx (r (2*i+1)) streetNames.length)
      "Main Street" ∈ streetNames := by
    rcases getD_mem_or streetNames (jsFloorIdx (r (2*i+1)) streetNames.length)
        "Main Street" with hm | hm
    · exact hm
    · rw [hm]; decide
  simp only [turnStep]
  rw [Bool.and_eq_true, Bool.and_eq_true]
  refine ⟨⟨decide_eq_true htt, decide_eq_true hst⟩, decide_eq_true ?_⟩
  trivial

/-- C8: for every input distance and random outcome, the step list of
`getDirectionsToBusStop` has the fixed shape: the fixed "Head east" first
step (50 m / 1 min), then `min(⌊distance/300⌋, 4)` turn steps — each a left
or right turn onto a street from the fixed 10-name list, carrying the
remaining `distance − 50` apportioned evenly over the turn steps plus the
continue step — then one "Continue straight" step and the terminal "Arrive"
step (0 m / 0 min); `totalDuration` is `distance_km × 12` minutes. -/
theorem getDirectionsToBusStop_shape :
    ∀ (T : TrigOps) (fromLat fromLon toLat toLon : ℚ) (name : String)
      (distance : ℚ) (r : ℕ → ℚ),
      (getDirectionsToBusStop T fromLat fromLon toLat toLon name distance
          r).steps.head? = some headEastStep
      ∧ (getDirectionsToBusStop T fromLat fromLon toLat toLon name distance
          r).steps.getLast? = some arriveStep
      ∧ (getDirectionsToBusStop T fromLat fromLon toLat toLon name distance
          r).steps.length
          = (min (Int.floor (distance / 300)) 4).toNat + 3
      ∧ stepDistance distance
          = (distance - 50) / (((numTurnsZ distance).toNat : ℚ) + 1)
      ∧ ((((getDirectionsToBusStop T fromLat fromLon toLat toLon name
              distance r).steps.drop 1).take (numTurnsZ distance).toNat).all
          (fun s =>
            (decide ((s.icon = Icon.left ∨ s.icon = Icon.right)))
              && decide (s.streetName.getD "" ∈ streetNames)
              && decide (s.distance
                    = toString (jsRound (stepDistance distance)) ++ "m")))
          = true
      ∧ ((getDirectionsToBusStop T fromLat fromLon toLat toLon name distance
            r).steps.drop ((numTurnsZ distance).toNat + 1)).head?
          = some (continueStep distance)
      ∧ (getDirectionsToBusStop T fromLat fromLon toLat toLon name distance
          r).totalDuration = formatDuration (distance / 1000 * 12) := by
  intro T fromLat fromLon toLat toLon name distance r
  have hsteps : (getDirectionsToBusStop T fromLat fromLon toLat toLon name
        distance r).steps
      = headEastStep
          :: ((List.range (numTurnsZ distance).toNat).map
                (turnStep distance r)
              ++ [continueStep distance, arriveStep]) := rfl
  have hlen : ((List.range (numTurnsZ distance).toNat).map
      (turnStep distance r)).length = (numTurnsZ distance).toNat := by
    rw [List.length_map, List.length_range]
  refine ⟨by rw [hsteps]; rfl, ?_, ?_, ?_, ?_, ?_, rfl⟩
  · rw [hsteps]
    rw [show headEastStep
          :: ((List.range (numTurnsZ distance).toNat).map
                (turnStep distance r)
              ++ [continueStep distance, arriveStep])
        = (headEastStep
            :: ((List.range (numTurnsZ distance).toNat).map
                  (turnStep distance r)
                ++ [continueStep distance])) ++ [arriveStep] by simp]
    rw [List.getLast?_concat]
  · rw [hsteps]
    simp only [List.length_cons, List.length_append, hlen, numTurnsZ]
    simp
  · by_cases h : numTurnsZ distance > 0
    · rw [stepDistance, if_pos h]
      have hc : (((numTurnsZ distance).toNat : ℕ) : ℚ)
          = ((numTurnsZ distance : ℤ) : ℚ) := by
        exact_mod_cast congrArg (fun z : ℤ => (z : ℚ))
          (Int.toNat_of_nonneg (le_of_lt h))
      rw [hc]
    · rw [stepDistance, if_neg h]
      rw [Int.toNat_of_nonpos (not_lt.mp h)]
      simp
  · rw [hsteps]
    set turns := (List.range (numTurnsZ distance).toNat).map
      (turnStep distance r) with hturns
    rw [List.drop_succ_cons, List.drop_zero, ← hlen, List.take_left]
    rw [List.all_eq_true]
    intro s hs
    rw [hturns] at hs
    obtain ⟨i, hi, rfl⟩ := List.mem_map.mp hs
    exact turnStep_shape distance r i
  · rw [hsteps]
    set turns := (List.range (numTurnsZ distance).toNat).map
      (turnStep distance r) with hturns
    rw [List.drop_succ_cons, ← hlen, List.drop_left]
    rfl

end TrainDelay
